import Mathlib

/-!
Verification of the Mercury Connect signaling/session core.

The development shallowly embeds the server signaling router
(src/server/routers.ts) together with the database helper layer
(db.ts: getSessionBySessionId, updateSessionStatus,
updateSessionSignaling, markNotificationSent, logSessionActivity,
createCalendarSession) as pure Lean functions over an explicit store
state.  Conventions:

* Timestamps are integers (milliseconds); the current time is passed
  explicitly as a parameter, mirroring each use of a fresh Date value.
* The external SHA-256 digest used by hashPassword is modelled as an
  abstract function parameter H; verifyPassword recomputes and compares,
  exactly as in the source.
* The serialized ICE candidate lists (JSON text columns) are modelled in
  parsed form as Option (List String); JSON.stringify and JSON.parse
  round-trip on these values, so serialization is the identity in the
  model.  A null column is none.
* Fallible endpoints return Except Err; a thrown error leaves the store
  untouched, which is reflected by the error constructor carrying no
  store.
-/

/-- Session status enum of the sessions table. -/
inductive SessionStatus
  | waiting
  | connecting
  | connected
  | disconnected
  | expired
deriving DecidableEq, Repr

/-- The `from` and `role` enum of sendIceCandidate and getSignalingData. -/
inductive Role
  | host
  | client
deriving DecidableEq, Repr

/-- Notification kind of markNotificationSent. -/
inductive NotifKind
  | start
  | end_
deriving DecidableEq, Repr

/-- The status values accepted by signaling.updateStatus. -/
inductive UpdStatus
  | connected
  | disconnected
deriving DecidableEq, Repr

/-- Error outcomes thrown by the routers, one constructor per distinct
thrown message. -/
inductive Err
  | notFound                 -- Session not found
  | expired                  -- Session has expired
  | ended                    -- Session has ended
  | invalidPassword          -- Invalid password
  | unauthorized             -- Unauthorized
  | notFoundOrUnauthorized   -- Session not found or unauthorized
  | invalidApiKey            -- Invalid API key
  | hostNotFound             -- Host user not found
  | createFailed             -- Failed to create meeting session
deriving DecidableEq, Repr

/-- A row of the sessions table. -/
structure Session where
  id : Nat
  sessionId : String
  passwordHash : String
  status : SessionStatus
  hostUserId : Option Nat
  clientName : Option String
  clientIp : Option String
  hostOffer : Option String
  clientAnswer : Option String
  clientOffer : Option String
  hostAnswer : Option String
  hostIceCandidates : Option (List String)
  clientIceCandidates : Option (List String)
  startNotificationSent : Bool
  endNotificationSent : Bool
  autoRecord : Bool
  calendarEventId : Option String
  calendarSource : Option String
  expiresAt : Int
  connectedAt : Option Int
  endedAt : Option Int
deriving DecidableEq, Repr

/-- A row of the users table (the fields the embedded code reads). -/
structure User where
  id : Nat
  email : Option String
deriving DecidableEq, Repr

/-- A row of the sessionLogs table. -/
structure LogEntry where
  sessionId : Nat
  activityType : String
deriving DecidableEq, Repr

/-- The world state: the durable store plus the observable external
effects (owner notifications dispatched, markNotificationSent writes). -/
structure Store where
  sessions : List Session
  users : List User
  logs : List LogEntry
  nextId : Nat
  notifications : List String
  markCalls : List (String × NotifKind)
deriving DecidableEq, Repr

/-! ### Database helper layer (db.ts) -/

/-- select ... where sessionId = sid limit 1. -/
def findBySid : List Session → String → Option Session
  | [], _ => none
  | s :: rest, sid => if s.sessionId = sid then some s else findBySid rest sid

/-- getSessionBySessionId. -/
def getSessionBySessionId (st : Store) (sid : String) : Option Session :=
  findBySid st.sessions sid

/-- update sessions set ... where sessionId = sid: applies f to every
matching row (the column is unique, so at most one row matches in
practice). -/
def updateSessionBySid (st : Store) (sid : String) (f : Session → Session) : Store :=
  { st with sessions := st.sessions.map fun s => if s.sessionId = sid then f s else s }

/-- The column updates performed by db.updateSessionStatus for a given
status value: connectedAt is set on connected, endedAt on disconnected
or expired. -/
def applyStatusUpdate (now : Int) (status : SessionStatus) (s : Session) : Session :=
  if status = .connected then
    { s with status := status, connectedAt := some now }
  else if status = .disconnected ∨ status = .expired then
    { s with status := status, endedAt := some now }
  else
    { s with status := status }

/-- db.updateSessionStatus. -/
def updateSessionStatus (st : Store) (sid : String) (status : SessionStatus) (now : Int) : Store :=
  updateSessionBySid st sid (applyStatusUpdate now status)

/-- db.markNotificationSent: sets the corresponding flag; the model also
records the write in markCalls so idempotence claims can count writes. -/
def markNotificationSent (st : Store) (sid : String) (kind : NotifKind) : Store :=
  let st' := updateSessionBySid st sid fun s =>
    match kind with
    | .start => { s with startNotificationSent := true }
    | .end_ => { s with endNotificationSent := true }
  { st' with markCalls := st'.markCalls ++ [(sid, kind)] }

/-- notifyOwner: the model records the dispatched notification title. -/
def notifyOwner (st : Store) (title : String) : Store :=
  { st with notifications := st.notifications ++ [title] }

/-- db.logSessionActivity (keyed by the internal numeric session id). -/
def logSessionActivity (st : Store) (internalId : Nat) (activityType : String) : Store :=
  { st with logs := st.logs ++ [⟨internalId, activityType⟩] }

/-- select ... where email = e limit 1 (SQL equality never matches a
NULL column). -/
def findByEmail : List User → String → Option User
  | [], _ => none
  | u :: rest, e => if u.email = some e then some u else findByEmail rest e

/-- db.getUserByEmail. -/
def getUserByEmail (st : Store) (email : String) : Option User :=
  findByEmail st.users email

/-! ### Credential utility -/

/-- verifyPassword: recomputes the digest of the candidate and compares
with the stored hash.  H stands for the external SHA-256 hex digest. -/
def verifyPassword (H : String → String) (password hash : String) : Bool :=
  H password == hash

/-- JavaScript truthiness of an optional string input (undefined and the
empty string are falsy). -/
def truthy : Option String → Bool
  | none => false
  | some s => !(s == "")

/-- JavaScript strict equality between the optional caller id
(ctx.user?.id, undefined when unauthenticated) and the nullable
hostUserId column: equal only when both are numbers and agree. -/
def jsIdEq : Option Nat → Option Nat → Bool
  | some a, some b => a == b
  | _, _ => false

/-! ### Signaling router (src/server/routers.ts) -/

/-- Output of signaling.join. -/
structure JoinOut where
  sessionId : String
  hostOffer : Option String
deriving DecidableEq, Repr

/-- signaling.join (routers.ts lines 202 to 257). -/
def join (H : String → String) (st : Store) (now : Int)
    (sessionId password : String) (clientName : Option String) (clientIp : String) :
    Except Err (Store × JoinOut) :=
  match getSessionBySessionId st sessionId with
  | none => .error .notFound
  | some session =>
    if session.status = .expired ∨ session.expiresAt < now then
      .error .expired
    else if session.status = .disconnected then
      .error .ended
    else if verifyPassword H password session.passwordHash = false then
      .error .invalidPassword
    else
      let st1 := updateSessionBySid st sessionId fun s =>
        { s with
          clientName := match clientName with
            | some c => some c
            | none => s.clientName
          clientIp := some clientIp }
      let st2 := logSessionActivity st1 session.id "client_joined"
      let st3 :=
        if session.startNotificationSent = false then
          markNotificationSent (notifyOwner st2 "New Remote Session Started")
            sessionId .start
        else st2
      .ok (st3, { sessionId := session.sessionId, hostOffer := session.hostOffer })

/-- session.get (routers.ts lines 130 to 145): owner-only full read. -/
def sessionGet (st : Store) (userId : Nat) (sessionId : String) : Except Err Session :=
  match getSessionBySessionId st sessionId with
  | none => .error .notFound
  | some session =>
    if session.hostUserId ≠ some userId then .error .unauthorized
    else .ok session

/-- session.end (routers.ts lines 161 to 183): marks the session
disconnected, logs, and sends the end notification at most once. -/
def sessionEnd (st : Store) (now : Int) (userId : Nat) (sessionId : String) :
    Except Err Store :=
  match getSessionBySessionId st sessionId with
  | none => .error .notFoundOrUnauthorized
  | some session =>
    if session.hostUserId ≠ some userId then .error .notFoundOrUnauthorized
    else
      let st1 := updateSessionStatus st sessionId .disconnected now
      let st2 := logSessionActivity st1 session.id "session_ended"
      let st3 :=
        if session.endNotificationSent = false then
          markNotificationSent (notifyOwner st2 "Remote Session Ended") sessionId .end_
        else st2
      .ok st3

/-- The store produced by a successful session.end call whose
notification branch fires (endNotificationSent was false). -/
def endFireStore (st : Store) (now : Int) (sid : String) (internalId : Nat) : Store :=
  markNotificationSent (notifyOwner (logSessionActivity
    (updateSessionStatus st sid .disconnected now) internalId "session_ended")
    "Remote Session Ended") sid .end_

/-- The store produced by a successful updateStatus disconnected call
whose notification branch fires (endNotificationSent was false). -/
def updStatusFireStore (st : Store) (now : Int) (sid : String) (internalId : Nat) : Store :=
  markNotificationSent (notifyOwner (logSessionActivity
    (updateSessionStatus st sid .disconnected now) internalId "disconnected")
    "Remote Session Ended") sid .end_

/-- signaling.sendOffer (routers.ts lines 260 to 277). -/
def sendOffer (st : Store) (userId : Nat) (sessionId offer : String) :
    Except Err Store :=
  match getSessionBySessionId st sessionId with
  | none => .error .notFoundOrUnauthorized
  | some session =>
    if session.hostUserId ≠ some userId then .error .notFoundOrUnauthorized
    else .ok (updateSessionBySid st sessionId fun s => { s with hostOffer := some offer })

/-- signaling.sendAnswer (routers.ts lines 280 to 305): password gated,
stores the answer and transitions the status to connected. -/
def sendAnswer (H : String → String) (st : Store) (now : Int)
    (sessionId password answer : String) : Except Err Store :=
  match getSessionBySessionId st sessionId with
  | none => .error .notFound
  | some session =>
    if verifyPassword H password session.passwordHash = false then
      .error .invalidPassword
    else
      let st1 := updateSessionBySid st sessionId fun s =>
        { s with clientAnswer := some answer }
      let st2 := updateSessionStatus st1 sessionId .connected now
      let st3 := logSessionActivity st2 session.id "host_connected"
      .ok st3

/-- signaling.sendIceCandidate (routers.ts lines 308 to 343): password is
verified only when from is client and the input password is truthy;
ownership is checked when from is host; one candidate is appended to the
parsed list of the submitting side. -/
def sendIceCandidate (H : String → String) (st : Store) (user : Option Nat)
    (sessionId : String) (password : Option String) (candidate : String)
    (from_ : Role) : Except Err Store :=
  match getSessionBySessionId st sessionId with
  | none => .error .notFound
  | some session =>
    if from_ = .client ∧ truthy password = true ∧
        verifyPassword H (password.getD "") session.passwordHash = false then
      .error .invalidPassword
    else if from_ = .host ∧ jsIdEq user session.hostUserId = false then
      .error .unauthorized
    else
      match from_ with
      | .host =>
        let existing := session.hostIceCandidates.getD []
        .ok (updateSessionBySid st sessionId fun s =>
          { s with hostIceCandidates := some (existing ++ [candidate]) })
      | .client =>
        let existing := session.clientIceCandidates.getD []
        .ok (updateSessionBySid st sessionId fun s =>
          { s with clientIceCandidates := some (existing ++ [candidate]) })

/-- Output of signaling.getSignalingData. -/
structure SignalingData where
  status : SessionStatus
  hostOffer : Option String
  clientAnswer : Option String
  hostIceCandidates : Option (List String)
  clientIceCandidates : Option (List String)
  clientName : Option String
  autoRecord : Bool
deriving DecidableEq, Repr

/-- signaling.getSignalingData (routers.ts lines 346 to 380): role-masked
read-only polling endpoint. -/
def getSignalingData (H : String → String) (st : Store) (user : Option Nat)
    (sessionId : String) (password : Option String) (role : Role) :
    Except Err SignalingData :=
  match getSessionBySessionId st sessionId with
  | none => .error .notFound
  | some session =>
    if role = .client ∧ truthy password = true ∧
        verifyPassword H (password.getD "") session.passwordHash = false then
      .error .invalidPassword
    else if role = .host ∧ jsIdEq user session.hostUserId = false then
      .error .unauthorized
    else
      .ok {
        status := session.status
        hostOffer := if role = .client then session.hostOffer else none
        clientAnswer := if role = .host then session.clientAnswer else none
        hostIceCandidates := if role = .client then session.hostIceCandidates else none
        clientIceCandidates := if role = .host then session.clientIceCandidates else none
        clientName := session.clientName
        autoRecord := session.autoRecord }

/-- signaling.sendOfferFromClient (routers.ts lines 383 to 405): no
credential check at all; stores the client offer, overwrites
clientIceCandidates with the supplied list or null, and transitions the
status to connecting. -/
def sendOfferFromClient (st : Store) (now : Int) (sessionId : String)
    (offer : String) (iceCandidates : Option (List String)) : Except Err Store :=
  match getSessionBySessionId st sessionId with
  | none => .error .notFound
  | some _session =>
    let st1 := updateSessionBySid st sessionId fun s =>
      { s with clientOffer := some offer, clientIceCandidates := iceCandidates }
    .ok (updateSessionStatus st1 sessionId .connecting now)

/-- signaling.sendAnswerFromHost (routers.ts lines 408 to 429): owner
gated; stores the host answer, overwrites hostIceCandidates with the
supplied list or null, and transitions the status to connected. -/
def sendAnswerFromHost (st : Store) (now : Int) (userId : Nat)
    (sessionId : String) (answer : String) (iceCandidates : Option (List String)) :
    Except Err Store :=
  match getSessionBySessionId st sessionId with
  | none => .error .notFoundOrUnauthorized
  | some session =>
    if session.hostUserId ≠ some userId then .error .notFoundOrUnauthorized
    else
      let st1 := updateSessionBySid st sessionId fun s =>
        { s with hostAnswer := some answer, hostIceCandidates := iceCandidates }
      .ok (updateSessionStatus st1 sessionId .connected now)

/-- Output of signaling.getOffer. -/
structure GetOfferOut where
  offer : Option String
  iceCandidates : Option (List String)
  clientName : Option String
deriving DecidableEq, Repr

/-- signaling.getOffer (routers.ts lines 454 to 474): owner gated read of
the client offer. -/
def getOffer (st : Store) (userId : Nat) (sessionId : String) :
    Except Err GetOfferOut :=
  match getSessionBySessionId st sessionId with
  | none => .error .notFoundOrUnauthorized
  | some session =>
    if session.hostUserId ≠ some userId then .error .notFoundOrUnauthorized
    else if session.clientOffer = none then
      .ok { offer := none, iceCandidates := none, clientName := session.clientName }
    else
      .ok {
        offer := session.clientOffer
        iceCandidates := some (session.clientIceCandidates.getD [])
        clientName := session.clientName }

/-- signaling.clientDisconnect (routers.ts lines 477 to 500): public, no
credential; transitions to disconnected, logs, end notification at most
once. -/
def clientDisconnect (st : Store) (now : Int) (sessionId : String) :
    Except Err Store :=
  match getSessionBySessionId st sessionId with
  | none => .error .notFound
  | some session =>
    let st1 := updateSessionStatus st sessionId .disconnected now
    let st2 := logSessionActivity st1 session.id "client_disconnected"
    let st3 :=
      if session.endNotificationSent = false then
        markNotificationSent (notifyOwner st2 "Remote Session Ended") sessionId .end_
      else st2
    .ok st3

/-- The session status written by signaling.updateStatus for each
accepted input value. -/
def UpdStatus.toStatus : UpdStatus → SessionStatus
  | .connected => .connected
  | .disconnected => .disconnected

/-- signaling.updateStatus (routers.ts lines 503 to 531): public; the
optional password input is accepted but never read; sets the status and,
on disconnected, logs and fires the end notification at most once. -/
def updateStatus (st : Store) (now : Int) (sessionId : String)
    (_password : Option String) (status : UpdStatus) : Except Err Store :=
  match getSessionBySessionId st sessionId with
  | none => .error .notFound
  | some session =>
    let st1 := updateSessionStatus st sessionId status.toStatus now
    if status = .disconnected then
      let st2 := logSessionActivity st1 session.id "disconnected"
      let st3 :=
        if session.endNotificationSent = false then
          markNotificationSent (notifyOwner st2 "Remote Session Ended") sessionId .end_
        else st2
      .ok st3
    else
      .ok st1

/-! ### Calendar bridge (routers.ts lines 608 to 697, db.ts
createCalendarSession) -/

/-- JavaScript `value || null` coercion on an optional string input:
undefined and the empty string both become null. -/
def jsOrNull : Option String → Option String
  | none => none
  | some s => if s = "" then none else some s

/-- The session row inserted by createCalendarSession: waiting status,
hashed password, expiry now + minutes, calendar provenance columns with
the JavaScript or-null coercion, everything else at its column
default. -/
def calendarSessionRow (H : String → String) (st : Store) (now : Int)
    (hostUserId : Nat) (expiresInMinutes : Int)
    (calendarEventId calendarSource : Option String)
    (genSid genPwd : String) : Session :=
  { id := st.nextId
    sessionId := genSid
    passwordHash := H genPwd
    status := .waiting
    hostUserId := some hostUserId
    clientName := none
    clientIp := none
    hostOffer := none
    clientAnswer := none
    clientOffer := none
    hostAnswer := none
    hostIceCandidates := none
    clientIceCandidates := none
    startNotificationSent := false
    endNotificationSent := false
    autoRecord := false
    calendarEventId := jsOrNull calendarEventId
    calendarSource := jsOrNull calendarSource
    expiresAt := now + expiresInMinutes * 60 * 1000
    connectedAt := none
    endedAt := none }

/-- db.createCalendarSession: inserts a fresh waiting session (id and
password produced by the random generator are passed in as oracle
values, the stored hash is the digest of the password), selects the row
back by sessionId and logs session_created.  The model appends the row;
a duplicate sessionId would make the select-back return the earlier row,
whereas the real unique index would reject the insert, so theorems about
this function assume the generated id is fresh. -/
def createCalendarSession (H : String → String) (st : Store) (now : Int)
    (hostUserId : Nat) (expiresInMinutes : Int)
    (calendarEventId calendarSource : Option String)
    (genSid genPwd : String) : Option (Store × Session × String) :=
  let newSession : Session :=
    calendarSessionRow H st now hostUserId expiresInMinutes
      calendarEventId calendarSource genSid genPwd
  let st1 : Store := { st with sessions := st.sessions ++ [newSession], nextId := st.nextId + 1 }
  match getSessionBySessionId st1 genSid with
  | none => none
  | some row => some (logSessionActivity st1 row.id "session_created", row, genPwd)

/-- Output of calendar.createMeeting. -/
structure CreateMeetingOut where
  sessionId : String
  password : String
  joinUrl : String
  hostUrl : String
  expiresAt : Int
deriving DecidableEq, Repr

/-- The base URL computation: the environment override wins unless it is
absent or empty (JavaScript ||). -/
def baseUrlOf : Option String → String
  | none => "https://connect.mercuryholdings.co"
  | some u => if u = "" then "https://connect.mercuryholdings.co" else u

/-- calendar.createMeeting (routers.ts lines 614 to 659).  The derived
calendar API key (a digest of the server secret) is passed in as
calendarApiKey.  The second component of the result is the ordered list
of store accesses the call performed, so that the claim that a wrong key
fails before any store read or write is expressible. -/
def createMeeting (H : String → String) (calendarApiKey : String) (st : Store)
    (now : Int) (apiKey hostEmail : String) (expiresInMinutes : Int)
    (calendarEventId calendarSource : Option String)
    (genSid genPwd : String) (baseUrlEnv : Option String) :
    Except Err (Store × CreateMeetingOut) × List String :=
  if apiKey ≠ calendarApiKey then
    (.error .invalidApiKey, [])
  else
    match getUserByEmail st hostEmail with
    | none => (.error .hostNotFound, ["users.select"])
    | some host =>
      match createCalendarSession H st now host.id expiresInMinutes
          calendarEventId calendarSource genSid genPwd with
      | none => (.error .createFailed, ["users.select", "sessions.insert", "sessions.select"])
      | some (st', sess, password) =>
        let baseUrl := baseUrlOf baseUrlEnv
        let joinUrl := baseUrl ++ "/join/" ++ sess.sessionId ++ "?p=" ++ password
        let hostUrl := baseUrl ++ "/viewer/" ++ sess.sessionId
        (.ok (st',
          { sessionId := sess.sessionId
            password := password
            joinUrl := joinUrl
            hostUrl := hostUrl
            expiresAt := sess.expiresAt }),
         ["users.select", "sessions.insert", "sessions.select", "sessionLogs.insert"])

/-! ### Operation language over the exposed endpoints -/

/-- One invocation of an exposed state-changing endpoint, with all its
inputs. -/
inductive Op
  | join (sid pwd : String) (clientName : Option String) (clientIp : String)
  | sendOffer (uid : Nat) (sid offer : String)
  | sendAnswer (sid pwd answer : String)
  | sendIceCandidate (user : Option Nat) (sid : String) (pwd : Option String)
      (candidate : String) (from_ : Role)
  | sendOfferFromClient (sid offer : String) (ice : Option (List String))
  | sendAnswerFromHost (uid : Nat) (sid answer : String) (ice : Option (List String))
  | clientDisconnect (sid : String)
  | updateStatus (sid : String) (pwd : Option String) (status : UpdStatus)
  | sessionEnd (uid : Nat) (sid : String)
deriving DecidableEq, Repr

/-- The store after an Except-valued endpoint call: a thrown error
leaves the store unchanged. -/
def exceptStore (st : Store) : Except Err Store → Store
  | .ok st' => st'
  | .error _ => st

/-- Whether an endpoint call succeeded. -/
def exceptOk {α : Type} : Except Err α → Bool
  | .ok _ => true
  | .error _ => false

/-- Run one endpoint invocation against the store. -/
def runOp (H : String → String) (now : Int) (st : Store) : Op → Store
  | .join sid pwd cn ip =>
    match join H st now sid pwd cn ip with
    | .ok (st', _) => st'
    | .error _ => st
  | .sendOffer uid sid offer => exceptStore st (sendOffer st uid sid offer)
  | .sendAnswer sid pwd answer => exceptStore st (sendAnswer H st now sid pwd answer)
  | .sendIceCandidate user sid pwd cand from_ =>
    exceptStore st (sendIceCandidate H st user sid pwd cand from_)
  | .sendOfferFromClient sid offer ice =>
    exceptStore st (sendOfferFromClient st now sid offer ice)
  | .sendAnswerFromHost uid sid ans ice =>
    exceptStore st (sendAnswerFromHost st now uid sid ans ice)
  | .clientDisconnect sid => exceptStore st (clientDisconnect st now sid)
  | .updateStatus sid pwd status => exceptStore st (updateStatus st now sid pwd status)
  | .sessionEnd uid sid => exceptStore st (sessionEnd st now uid sid)

/-- Run a sequence of endpoint invocations left to right. -/
def runOps (H : String → String) (now : Int) : Store → List Op → Store
  | st, [] => st
  | st, op :: rest => runOps H now (runOp H now st op) rest

/-- A session status is terminal when it is disconnected or expired. -/
def isTerminal (s : SessionStatus) : Prop :=
  s = .disconnected ∨ s = .expired

instance (s : SessionStatus) : Decidable (isTerminal s) := by
  unfold isTerminal; infer_instance

/-- Every stored row with the given external id has a terminal status. -/
def terminalAt (st : Store) (sid : String) : Prop :=
  ∀ s ∈ st.sessions, s.sessionId = sid → isTerminal s.status

instance (st : Store) (sid : String) : Decidable (terminalAt st sid) := by
  unfold terminalAt; infer_instance

/-- The endpoints that never move a terminal session back to an earlier
status.  sendAnswer and sendAnswerFromHost write connected,
sendOfferFromClient writes connecting, and updateStatus can write
connected, all without checking the current status, so those are
excluded. -/
def Op.preservesTerminal : Op → Bool
  | .sendAnswer _ _ _ => false
  | .sendOfferFromClient _ _ _ => false
  | .sendAnswerFromHost _ _ _ _ => false
  | .updateStatus _ _ .connected => false
  | _ => true

/-- The stored status of a session after an Except-valued endpoint call,
or none when the call failed. -/
def statusResult (r : Except Err Store) (sid : String) : Option SessionStatus :=
  match r with
  | .ok st => (getSessionBySessionId st sid).map Session.status
  | .error _ => none

/-! ### Concrete instances used by witnesses and counterexamples -/

/-- An example session used to instantiate the theorems on concrete
inputs: stored status is connected (not expired), both notification
flags false, all signaling fields populated. -/
def exSession : Session where
  id := 1
  sessionId := "s1"
  passwordHash := "PW1"
  status := .connected
  hostUserId := some 7
  clientName := some "alice"
  clientIp := some "10.0.0.1"
  hostOffer := some "OFFER1"
  clientAnswer := some "ANSWER1"
  clientOffer := some "COFFER1"
  hostAnswer := some "HANSWER1"
  hostIceCandidates := some ["hice1"]
  clientIceCandidates := some ["cice1"]
  startNotificationSent := false
  endNotificationSent := false
  autoRecord := false
  calendarEventId := none
  calendarSource := none
  expiresAt := 100
  connectedAt := none
  endedAt := none

/-- An example store holding exSession and one user. -/
def exStore : Store where
  sessions := [exSession]
  users := [{ id := 7, email := some "host@mercury.test" }]
  logs := []
  nextId := 2
  notifications := []
  markCalls := []

/-- The identity function standing in for the hash digest in concrete
evaluations (the stored hash of exSession is the image of "PW1"). -/
def hId : String → String := fun s => s

/-- A store whose only session is already disconnected. -/
def exStoreDisc : Store where
  sessions := [{ exSession with status := .disconnected, endNotificationSent := true }]
  users := [{ id := 7, email := some "host@mercury.test" }]
  logs := []
  nextId := 2
  notifications := []
  markCalls := []

/-! ## Helper lemmas -/

/-- A row lookup after a by-sessionId update returns the updated row,
provided the update preserves the key column. -/
theorem findBySid_map_update (l : List Session) (sid : String) (f : Session → Session)
    (hf : ∀ s, (f s).sessionId = s.sessionId) :
    findBySid (l.map fun s => if s.sessionId = sid then f s else s) sid
      = (findBySid l sid).map f := by
  induction l with
  | nil => rfl
  | cons s rest ih =>
    by_cases h : s.sessionId = sid
    · simp only [List.map_cons, findBySid, if_pos h, hf, h, if_true]
      rfl
    · simp only [List.map_cons, findBySid, if_neg h, ih]

/-- getSessionBySessionId after updateSessionBySid on the same id. -/
theorem get_updateBySid (st : Store) (sid : String) (f : Session → Session)
    (hf : ∀ s, (f s).sessionId = s.sessionId) :
    getSessionBySessionId (updateSessionBySid st sid f) sid
      = (getSessionBySessionId st sid).map f :=
  findBySid_map_update st.sessions sid f hf

/-- applyStatusUpdate never changes the key column. -/
theorem applyStatusUpdate_sessionId (now : Int) (status : SessionStatus) (s : Session) :
    (applyStatusUpdate now status s).sessionId = s.sessionId := by
  unfold applyStatusUpdate
  split
  · rfl
  · split
    · rfl
    · rfl

/-- Row lookup after updateSessionStatus on the same id. -/
theorem get_updateStatus (st : Store) (sid : String) (s : SessionStatus) (now : Int)
    (session : Session) (hget : getSessionBySessionId st sid = some session) :
    getSessionBySessionId (updateSessionStatus st sid s now) sid
      = some (applyStatusUpdate now s session) := by
  unfold updateSessionStatus
  rw [get_updateBySid _ _ _ (applyStatusUpdate_sessionId now s), hget]
  rfl

/-- Row lookup after markNotificationSent on the same id. -/
theorem get_mark (st : Store) (sid : String) (kind : NotifKind) :
    getSessionBySessionId (markNotificationSent st sid kind) sid
      = (getSessionBySessionId st sid).map (fun s => match kind with
          | .start => { s with startNotificationSent := true }
          | .end_ => { s with endNotificationSent := true }) :=
  findBySid_map_update _ _ _ (fun s => by cases kind <;> rfl)

/-- Appending a row whose key is fresh makes lookup of that key return
the new row. -/
theorem findBySid_append_fresh (l : List Session) (s : Session)
    (hfresh : ∀ x ∈ l, x.sessionId ≠ s.sessionId) :
    findBySid (l ++ [s]) s.sessionId = some s := by
  induction l with
  | nil => simp [findBySid]
  | cons a rest ih =>
    have ha : a.sessionId ≠ s.sessionId := hfresh a (by simp)
    simp only [List.cons_append, findBySid, if_neg ha]
    exact ih (fun x hx => hfresh x (by simp [hx]))

/-- session.end on a session whose end notification was already sent
fires no notification: the result is just the status write plus the
audit log entry. -/
theorem sessionEnd_flagTrue (st : Store) (now : Int) (uid : Nat) (sid : String)
    (session : Session)
    (hget : getSessionBySessionId st sid = some session)
    (hown : session.hostUserId = some uid)
    (hflag : session.endNotificationSent = true) :
    sessionEnd st now uid sid
      = .ok (logSessionActivity (updateSessionStatus st sid .disconnected now)
          session.id "session_ended") := by
  unfold sessionEnd
  rw [hget]
  simp [hown, hflag]

/-- createCalendarSession with a fresh generated id inserts exactly the
calendarSessionRow, selects it back, and logs session_created. -/
theorem createCalendarSession_fresh (H : String → String) (st : Store) (now : Int)
    (hostUserId : Nat) (mins : Int) (evId src : Option String) (genSid genPwd : String)
    (hfresh : ∀ x ∈ st.sessions, x.sessionId ≠ genSid) :
    createCalendarSession H st now hostUserId mins evId src genSid genPwd
      = some (logSessionActivity
          { st with
            sessions := st.sessions ++
              [calendarSessionRow H st now hostUserId mins evId src genSid genPwd]
            nextId := st.nextId + 1 }
          st.nextId "session_created",
        calendarSessionRow H st now hostUserId mins evId src genSid genPwd, genPwd) := by
  have hsel : getSessionBySessionId
      { st with
        sessions := st.sessions ++
          [calendarSessionRow H st now hostUserId mins evId src genSid genPwd]
        nextId := st.nextId + 1 } genSid
      = some (calendarSessionRow H st now hostUserId mins evId src genSid genPwd) :=
    findBySid_append_fresh st.sessions _ (fun x hx => hfresh x hx)
  simp only [createCalendarSession]
  rw [hsel]
  rfl

/-- terminalAt only depends on the sessions column. -/
theorem terminalAt_sessions_eq {st st' : Store} (h : st'.sessions = st.sessions)
    {sid : String} (ht : terminalAt st sid) : terminalAt st' sid :=
  fun s hs => ht s (h ▸ hs)

/-- updateSessionBySid preserves terminality when the update preserves
the key and either preserves the status or writes disconnected. -/
theorem terminalAt_update {st : Store} {sid' : String} (sid : String)
    {f : Session → Session}
    (hid : ∀ s, (f s).sessionId = s.sessionId)
    (hst : ∀ s, (f s).status = s.status ∨ (f s).status = .disconnected)
    (ht : terminalAt st sid') : terminalAt (updateSessionBySid st sid f) sid' := by
  intro x hx hxid
  simp only [updateSessionBySid, List.mem_map] at hx
  obtain ⟨s, hs, hxs⟩ := hx
  by_cases h : s.sessionId = sid
  · rw [if_pos h] at hxs
    subst hxs
    have hterm : isTerminal s.status := ht s hs ((hid s) ▸ hxid)
    rcases hst s with hsame | hdisc
    · rw [hsame]; exact hterm
    · rw [hdisc]; exact Or.inl rfl
  · rw [if_neg h] at hxs
    subst hxs
    exact ht s hs hxid

/-- logSessionActivity preserves terminality. -/
theorem terminalAt_log {st : Store} {sid : String} (i : Nat) (a : String)
    (ht : terminalAt st sid) : terminalAt (logSessionActivity st i a) sid :=
  fun s hs => ht s hs

/-- notifyOwner preserves terminality. -/
theorem terminalAt_notify {st : Store} {sid : String} (t : String)
    (ht : terminalAt st sid) : terminalAt (notifyOwner st t) sid :=
  fun s hs => ht s hs

/-- markNotificationSent preserves terminality. -/
theorem terminalAt_mark {st : Store} {sid' : String} (sid : String) (kind : NotifKind)
    (ht : terminalAt st sid') : terminalAt (markNotificationSent st sid kind) sid' := by
  have h := @terminalAt_update st sid' sid
    (fun s => match kind with
      | .start => { s with startNotificationSent := true }
      | .end_ => { s with endNotificationSent := true })
    (fun s => by cases kind <;> rfl)
    (fun s => by cases kind <;> exact Or.inl rfl)
    ht
  exact fun s hs => h s hs

/-- Writing the disconnected status preserves terminality. -/
theorem terminalAt_setDisconnected {st : Store} {sid' : String} (sid : String) (now : Int)
    (ht : terminalAt st sid') :
    terminalAt (updateSessionStatus st sid .disconnected now) sid' :=
  terminalAt_update sid
    (fun s => by simp [applyStatusUpdate])
    (fun s => by simp [applyStatusUpdate])
    ht

/-- Any single endpoint invocation outside the excluded four keeps a
terminal session terminal. -/
theorem runOp_terminal (H : String → String) (now : Int) (st : Store) (op : Op)
    (sid : String) (hop : op.preservesTerminal = true) (ht : terminalAt st sid) :
    terminalAt (runOp H now st op) sid := by
  cases op with
  | join jsid pwd cn ip =>
    simp only [runOp]
    cases hj : join H st now jsid pwd cn ip with
    | error e => exact ht
    | ok p =>
      obtain ⟨st', out⟩ := p
      unfold join at hj
      cases hg : getSessionBySessionId st jsid <;> rw [hg] at hj
      · exact Except.noConfusion hj
      · split at hj
        · exact Except.noConfusion hj
        · split at hj
          · exact Except.noConfusion hj
          · split at hj
            · exact Except.noConfusion hj
            · split at hj
              · exact Except.noConfusion hj
              · injection hj with h
                obtain ⟨h1, -⟩ := Prod.mk.inj h
                subst h1
                dsimp only
                split
                · exact terminalAt_mark _ _ (terminalAt_notify _ (terminalAt_log _ _
                    (terminalAt_update _ (fun s => rfl) (fun s => Or.inl rfl) ht)))
                · exact terminalAt_log _ _
                    (terminalAt_update _ (fun s => rfl) (fun s => Or.inl rfl) ht)
  | sendOffer uid osid offer =>
    simp only [runOp]
    cases hc : sendOffer st uid osid offer with
    | error e => exact ht
    | ok st' =>
      unfold sendOffer at hc
      cases hg : getSessionBySessionId st osid <;> rw [hg] at hc
      · exact Except.noConfusion hc
      · split at hc
        · exact Except.noConfusion hc
        · split at hc
          · exact Except.noConfusion hc
          · injection hc with h
            subst h
            exact terminalAt_update _ (fun s => rfl) (fun s => Or.inl rfl) ht
  | sendAnswer asid pwd answer => simp [Op.preservesTerminal] at hop
  | sendIceCandidate user isid pwd cand from_ =>
    simp only [runOp]
    cases hc : sendIceCandidate H st user isid pwd cand from_ with
    | error e => exact ht
    | ok st' =>
      unfold sendIceCandidate at hc
      cases hg : getSessionBySessionId st isid <;> rw [hg] at hc
      · exact Except.noConfusion hc
      · split at hc
        · exact Except.noConfusion hc
        · split at hc
          · exact Except.noConfusion hc
          · split at hc
            · exact Except.noConfusion hc
            · cases from_ with
              | host =>
                injection hc with h
                subst h
                exact terminalAt_update _ (fun s => rfl) (fun s => Or.inl rfl) ht
              | client =>
                injection hc with h
                subst h
                exact terminalAt_update _ (fun s => rfl) (fun s => Or.inl rfl) ht
  | sendOfferFromClient csid offer ice => simp [Op.preservesTerminal] at hop
  | sendAnswerFromHost uid hsid ans ice => simp [Op.preservesTerminal] at hop
  | clientDisconnect dsid =>
    simp only [runOp]
    cases hc : clientDisconnect st now dsid with
    | error e => exact ht
    | ok st' =>
      unfold clientDisconnect at hc
      cases hg : getSessionBySessionId st dsid <;> rw [hg] at hc
      · exact Except.noConfusion hc
      · split at hc
        · exact Except.noConfusion hc
        · injection hc with h
          subst h
          dsimp only [exceptStore]
          split
          · exact terminalAt_mark _ _ (terminalAt_notify _ (terminalAt_log _ _
              (terminalAt_setDisconnected _ _ ht)))
          · exact terminalAt_log _ _ (terminalAt_setDisconnected _ _ ht)
  | updateStatus usid pwd status =>
    cases status with
    | connected => simp [Op.preservesTerminal] at hop
    | disconnected =>
      simp only [runOp]
      cases hc : updateStatus st now usid pwd .disconnected with
      | error e => exact ht
      | ok st' =>
        unfold updateStatus at hc
        cases hg : getSessionBySessionId st usid <;> rw [hg] at hc
        · exact Except.noConfusion hc
        · split at hc
          · exact Except.noConfusion hc
          · split at hc
            · injection hc with h
              subst h
              dsimp only [exceptStore]
              split
              · exact terminalAt_mark _ _ (terminalAt_notify _ (terminalAt_log _ _
                  (terminalAt_setDisconnected _ _ ht)))
              · exact terminalAt_log _ _ (terminalAt_setDisconnected _ _ ht)
            · rename_i hfalse
              exact absurd rfl hfalse
  | sessionEnd uid esid =>
    simp only [runOp]
    cases hc : sessionEnd st now uid esid with
    | error e => exact ht
    | ok st' =>
      unfold sessionEnd at hc
      cases hg : getSessionBySessionId st esid <;> rw [hg] at hc
      · exact Except.noConfusion hc
      · split at hc
        · exact Except.noConfusion hc
        · split at hc
          · exact Except.noConfusion hc
          · injection hc with h
            subst h
            dsimp only [exceptStore]
            split
            · exact terminalAt_mark _ _ (terminalAt_notify _ (terminalAt_log _ _
                (terminalAt_setDisconnected _ _ ht)))
            · exact terminalAt_log _ _ (terminalAt_setDisconnected _ _ ht)

/-! ## Claim C1 -/

/-- C1: for every stored session whose expiresAt timestamp is earlier
than the current time, signaling.join fails with the Expired error,
whatever the stored status field holds and whatever password is
supplied. -/
theorem C1_join_expired (H : String → String) (st : Store) (now : Int)
    (sid password : String) (clientName : Option String) (clientIp : String)
    (session : Session)
    (hget : getSessionBySessionId st sid = some session)
    (hexp : session.expiresAt < now) :
    join H st now sid password clientName clientIp = .error .expired := by
  unfold join
  rw [hget]
  simp [hexp]

/-- Witness for C1: a join at time 500 against exSession, which expired
at time 100 while its stored status is connected, fails with Expired. -/
theorem C1_join_expired_witness :
    join hId exStore 500 "s1" "PW1" none "ip" = .error .expired :=
  C1_join_expired hId exStore 500 "s1" "PW1" none "ip" exSession (by decide) (by decide)

/-! ## Claim C2 -/

/-- C2 counterexample: the claim says status is monotonic for every
sequence of exposed operations, but the code enforces no guard.
exStoreDisc stores a disconnected session, and the single public
updateStatus operation with status connected moves it back to
connected. -/
theorem C2_counterexample :
    (getSessionBySessionId exStoreDisc "s1").map Session.status
        = some SessionStatus.disconnected ∧
    (getSessionBySessionId (runOps hId 50 exStoreDisc
          [Op.updateStatus "s1" none UpdStatus.connected]) "s1").map Session.status
        = some SessionStatus.connected := by decide

/-- C2 (amended): once a session is disconnected or expired, the
operations join, sendOffer, sendIceCandidate, clientDisconnect,
session.end, and updateStatus with status disconnected never move it to
waiting, connecting, or connected; the four excluded operations
(sendAnswer, sendOfferFromClient, sendAnswerFromHost, and updateStatus
with status connected) write an earlier status without checking the
current one, so full monotonicity fails. -/
theorem C2_monotonic_amended (H : String → String) (now : Int) :
    ∀ (ops : List Op), (∀ op ∈ ops, op.preservesTerminal = true) →
      ∀ (st : Store) (sid : String), terminalAt st sid →
        terminalAt (runOps H now st ops) sid := by
  intro ops
  induction ops with
  | nil => intro _ st sid ht; exact ht
  | cons op rest ih =>
    intro hsafe st sid ht
    exact ih (fun o ho => hsafe o (List.mem_cons_of_mem _ ho)) _ sid
      (runOp_terminal H now st op sid (hsafe op (List.mem_cons_self op rest)) ht)

/-- Witness for C2 amended: a concrete sequence of the non-excluded
operations run on the disconnected exStoreDisc leaves it terminal. -/
theorem C2_monotonic_amended_witness :
    terminalAt (runOps hId 60 exStoreDisc
      [Op.join "s1" "PW1" (some "bob") "ip1",
       Op.sendOffer 7 "s1" "OF2",
       Op.sendIceCandidate (some 7) "s1" none "cand" Role.host,
       Op.clientDisconnect "s1",
       Op.updateStatus "s1" none UpdStatus.disconnected,
       Op.sessionEnd 7 "s1"]) "s1" :=
  C2_monotonic_amended hId 60 _ (by decide) exStoreDisc "s1" (by decide)

/-! ## Claim C3 -/

/-- C3 counterexample: the claim says every state-changing operation on
a session past expiresAt fails with Expired, but clientDisconnect on
exStore at time 500 (exSession expired at 100) succeeds. -/
theorem C3_counterexample :
    exSession.expiresAt < 500 ∧
    getSessionBySessionId exStore "s1" = some exSession ∧
    exceptOk (clientDisconnect exStore 500 "s1") = true := by decide

/-- C3 (amended): only join checks expiry.  For a stored session whose
expiresAt is in the past, sendAnswer (with a verifying password),
sendIceCandidate from the client with no password, sendOfferFromClient,
sendAnswerFromHost (by the owner), clientDisconnect, and updateStatus
all succeed rather than failing with Expired, and the read-only
getSignalingData poll succeeds reporting the stored status field
unchanged, with no lazy correction to expired. -/
theorem C3_expiry_unchecked_amended (H : String → String) (st : Store) (now : Int)
    (sid : String) (user : Option Nat) (session : Session)
    (hget : getSessionBySessionId st sid = some session)
    (hexp : session.expiresAt < now) :
    (∀ pwd answer, verifyPassword H pwd session.passwordHash = true →
        exceptOk (sendAnswer H st now sid pwd answer) = true) ∧
    (∀ candidate, exceptOk (sendIceCandidate H st user sid none candidate .client) = true) ∧
    (∀ offer ice, exceptOk (sendOfferFromClient st now sid offer ice) = true) ∧
    (∀ uid answer ice, session.hostUserId = some uid →
        exceptOk (sendAnswerFromHost st now uid sid answer ice) = true) ∧
    exceptOk (clientDisconnect st now sid) = true ∧
    (∀ pwd status, exceptOk (updateStatus st now sid pwd status) = true) ∧
    getSignalingData H st user sid none .client
      = .ok { status := session.status
              hostOffer := session.hostOffer
              clientAnswer := none
              hostIceCandidates := session.hostIceCandidates
              clientIceCandidates := none
              clientName := session.clientName
              autoRecord := session.autoRecord } := by
  refine ⟨?_, ?_, ?_, ?_, ?_, ?_, ?_⟩
  · intro pwd answer hver
    unfold sendAnswer
    rw [hget]
    simp [exceptOk, hver]
  · intro candidate
    unfold sendIceCandidate
    rw [hget]
    simp [truthy, exceptOk]
  · intro offer ice
    unfold sendOfferFromClient
    rw [hget]
    simp [exceptOk]
  · intro uid answer ice huid
    unfold sendAnswerFromHost
    rw [hget]
    simp [huid, exceptOk]
  · unfold clientDisconnect
    rw [hget]
    simp [exceptOk]
  · intro pwd status
    unfold updateStatus
    rw [hget]
    cases status <;> simp [exceptOk]
  · unfold getSignalingData
    rw [hget]
    simp [truthy]

/-- Witness for C3 amended: two of the operations evaluated on the
concrete expired exStore at time 500 succeed. -/
theorem C3_expiry_unchecked_amended_witness :
    exceptOk (clientDisconnect exStore 500 "s1") = true ∧
    exceptOk (sendOfferFromClient exStore 500 "s1" "OF" none) = true := by
  have h := C3_expiry_unchecked_amended hId exStore 500 "s1" (some 7) exSession
    (by decide) (by decide)
  exact ⟨h.2.2.2.2.1, h.2.2.1 "OF" none⟩

/-! ## Claim C4 -/

/-- C4: for every existing session and every authenticated caller whose
id differs from hostUserId, session.get, session.end, sendOffer,
getOffer, and sendAnswerFromHost all fail, even on an active session.
session.get throws the plain Unauthorized message; the other four throw
the combined not-found-or-unauthorized message, whose unauthorized
branch is the operative one here since the session exists. -/
theorem C4_ownership (st : Store) (now : Int) (uid : Nat) (sid : String)
    (session : Session)
    (hget : getSessionBySessionId st sid = some session)
    (hne : session.hostUserId ≠ some uid) :
    sessionGet st uid sid = .error .unauthorized ∧
    sessionEnd st now uid sid = .error .notFoundOrUnauthorized ∧
    (∀ offer, sendOffer st uid sid offer = .error .notFoundOrUnauthorized) ∧
    getOffer st uid sid = .error .notFoundOrUnauthorized ∧
    (∀ answer ice, sendAnswerFromHost st now uid sid answer ice
        = .error .notFoundOrUnauthorized) := by
  refine ⟨?_, ?_, ?_, ?_, ?_⟩
  · unfold sessionGet
    rw [hget]
    simp [hne]
  · unfold sessionEnd
    rw [hget]
    simp [hne]
  · intro offer
    unfold sendOffer
    rw [hget]
    simp [hne]
  · unfold getOffer
    rw [hget]
    simp [hne]
  · intro answer ice
    unfold sendAnswerFromHost
    rw [hget]
    simp [hne]

/-- Witness for C4: caller 99 against exSession, owned by user 7 and
still active. -/
theorem C4_ownership_witness :
    sessionGet exStore 99 "s1" = .error .unauthorized ∧
    sessionEnd exStore 500 99 "s1" = .error .notFoundOrUnauthorized ∧
    sendOffer exStore 99 "s1" "O" = .error .notFoundOrUnauthorized ∧
    getOffer exStore 99 "s1" = .error .notFoundOrUnauthorized ∧
    sendAnswerFromHost exStore 500 99 "s1" "A" none = .error .notFoundOrUnauthorized := by
  have h := C4_ownership exStore 500 99 "s1" exSession (by decide) (by decide)
  exact ⟨h.1, h.2.1, h.2.2.1 "O", h.2.2.2.1, h.2.2.2.2 "A" none⟩

/-! ## Claim C5 -/

/-- C5: a successful getSignalingData call with role client returns
null clientAnswer and clientIceCandidates whatever the store holds, and
a successful call with role host returns null hostOffer and
hostIceCandidates whatever the store holds. -/
theorem C5_role_masking (H : String → String) (st : Store) (user : Option Nat)
    (sid : String) (password : Option String) :
    (∀ out, getSignalingData H st user sid password .client = .ok out →
        out.clientAnswer = none ∧ out.clientIceCandidates = none) ∧
    (∀ out, getSignalingData H st user sid password .host = .ok out →
        out.hostOffer = none ∧ out.hostIceCandidates = none) := by
  constructor
  · intro out hok
    unfold getSignalingData at hok
    cases hg : getSessionBySessionId st sid <;> rw [hg] at hok
    · exact Except.noConfusion hok
    · split at hok
      · exact Except.noConfusion hok
      · split at hok
        · exact Except.noConfusion hok
        · split at hok
          · exact Except.noConfusion hok
          · injection hok with h
            subst h
            exact ⟨rfl, rfl⟩
  · intro out hok
    unfold getSignalingData at hok
    cases hg : getSessionBySessionId st sid <;> rw [hg] at hok
    · exact Except.noConfusion hok
    · split at hok
      · exact Except.noConfusion hok
      · split at hok
        · exact Except.noConfusion hok
        · split at hok
          · exact Except.noConfusion hok
          · injection hok with h
            subst h
            exact ⟨rfl, rfl⟩

/-- Witness for C5: exSession stores non-null values in all four
signaling fields, yet the client-role poll returns null clientAnswer
and clientIceCandidates. -/
theorem C5_role_masking_witness :
    ∃ out, getSignalingData hId exStore none "s1" none Role.client = .ok out ∧
      out.clientAnswer = none ∧ out.clientIceCandidates = none := by
  have hok : getSignalingData hId exStore none "s1" none Role.client = .ok
      { status := exSession.status
        hostOffer := exSession.hostOffer
        clientAnswer := none
        hostIceCandidates := exSession.hostIceCandidates
        clientIceCandidates := none
        clientName := exSession.clientName
        autoRecord := exSession.autoRecord } := by rfl
  exact ⟨_, hok, (C5_role_masking hId exStore none "s1" none).1 _ hok⟩

/-! ## Claim C6 -/

/-- C6 counterexample: the claim says a client sendIceCandidate call
that supplies no password fails with InvalidPassword, but the code only
verifies the password when one is supplied: the passwordless client
call on exStore succeeds. -/
theorem C6_counterexample :
    getSessionBySessionId exStore "s1" = some exSession ∧
    exceptOk (sendIceCandidate hId exStore none "s1" none "cand" Role.client) = true := by
  decide

/-- C6 (amended): a client sendIceCandidate call that supplies a truthy
password failing verification gets InvalidPassword (the store is
untouched, as the error carries no store); a client call that supplies
no password, or an empty one, skips verification entirely and succeeds;
a host call whose caller id does not match hostUserId gets
Unauthorized. -/
theorem C6_ice_credentials_amended (H : String → String) (st : Store)
    (user : Option Nat) (sid candidate : String) (session : Session)
    (hget : getSessionBySessionId st sid = some session) :
    (∀ p, truthy (some p) = true →
        verifyPassword H p session.passwordHash = false →
        sendIceCandidate H st user sid (some p) candidate .client
          = .error .invalidPassword) ∧
    (∀ pwd, jsIdEq user session.hostUserId = false →
        sendIceCandidate H st user sid pwd candidate .host = .error .unauthorized) ∧
    exceptOk (sendIceCandidate H st user sid none candidate .client) = true := by
  refine ⟨?_, ?_, ?_⟩
  · intro p htruthy hver
    unfold sendIceCandidate
    rw [hget]
    simp [htruthy, hver]
  · intro pwd hown
    unfold sendIceCandidate
    rw [hget]
    simp [hown]
  · unfold sendIceCandidate
    rw [hget]
    simp [truthy, exceptOk]

/-- Witness for C6 amended, on exSession whose stored hash is the
digest of PW1: a wrong truthy password is rejected, a non-owner host
call is rejected, a passwordless client call passes. -/
theorem C6_ice_credentials_amended_witness :
    sendIceCandidate hId exStore none "s1" (some "WRONG") "cand" Role.client
      = .error .invalidPassword ∧
    sendIceCandidate hId exStore (some 99) "s1" none "cand" Role.host
      = .error .unauthorized ∧
    exceptOk (sendIceCandidate hId exStore none "s1" none "cand" Role.client) = true := by
  have h := C6_ice_credentials_amended hId exStore none "s1" "cand" exSession (by decide)
  have h2 := C6_ice_credentials_amended hId exStore (some 99) "s1" "cand" exSession (by decide)
  exact ⟨h.1 "WRONG" (by decide) (by decide), h2.2.1 none (by decide), h.2.2⟩

/-! ## Claim C7 -/

/-- C7 counterexample: the claim says no exposed operation ever
replaces or clears a non-empty ICE list, but sendOfferFromClient with
no candidates overwrites the non-empty clientIceCandidates of exSession
with null. -/
theorem C7_counterexample :
    exSession.clientIceCandidates = some ["cice1"] ∧
    (match sendOfferFromClient exStore 500 "s1" "OF" none with
      | .ok st' => (getSessionBySessionId st' "s1").map Session.clientIceCandidates
      | .error _ => none)
      = some none := by decide

/-- C7 (amended): every successful sendIceCandidate call appends
exactly one candidate to the submitting side, preserving the other
side, all previously appended candidates, and every other field; but
ICE lists are not append-only across all exposed operations, because
sendOfferFromClient and sendAnswerFromHost overwrite the client and
host list respectively with the supplied value or null. -/
theorem C7_ice_append_amended (H : String → String) (st : Store) (user : Option Nat)
    (sid : String) (pwd : Option String) (candidate : String) (session : Session)
    (st' : Store)
    (hget : getSessionBySessionId st sid = some session) :
    (sendIceCandidate H st user sid pwd candidate .host = .ok st' →
      getSessionBySessionId st' sid = some { session with
        hostIceCandidates := some (session.hostIceCandidates.getD [] ++ [candidate]) }) ∧
    (sendIceCandidate H st user sid pwd candidate .client = .ok st' →
      getSessionBySessionId st' sid = some { session with
        clientIceCandidates := some (session.clientIceCandidates.getD [] ++ [candidate]) }) := by
  constructor
  · intro hok
    unfold sendIceCandidate at hok
    rw [hget] at hok
    split at hok
    · exact Except.noConfusion hok
    · rename_i x2 session2 heq
      injection heq with heqs
      subst heqs
      split at hok
      · exact Except.noConfusion hok
      · split at hok
        · exact Except.noConfusion hok
        · injection hok with h
          subst h
          refine (get_updateBySid st sid _ ?_).trans ?_
          · intro s
            rfl
          · rw [hget]
            rfl
  · intro hok
    unfold sendIceCandidate at hok
    rw [hget] at hok
    split at hok
    · exact Except.noConfusion hok
    · rename_i x2 session2 heq
      injection heq with heqs
      subst heqs
      split at hok
      · exact Except.noConfusion hok
      · split at hok
        · exact Except.noConfusion hok
        · injection hok with h
          subst h
          refine (get_updateBySid st sid _ ?_).trans ?_
          · intro s
            rfl
          · rw [hget]
            rfl

/-- Witness for C7 amended: a host candidate appended on exStore yields
the stored list with the new candidate at the end, client side
untouched. -/
theorem C7_ice_append_amended_witness :
    ∃ st', sendIceCandidate hId exStore (some 7) "s1" none "c2" Role.host = .ok st' ∧
      getSessionBySessionId st' "s1"
        = some { exSession with hostIceCandidates := some ["hice1", "c2"] } := by
  have hco : exceptOk (sendIceCandidate hId exStore (some 7) "s1" none "c2" Role.host)
      = true := by decide
  cases hok : sendIceCandidate hId exStore (some 7) "s1" none "c2" Role.host with
  | error e => rw [hok] at hco; simp [exceptOk] at hco
  | ok st' =>
    exact ⟨st', rfl,
      (C7_ice_append_amended hId exStore (some 7) "s1" none "c2" exSession st'
        (by decide)).1 hok⟩

/-! ## Claim C8 -/

/-- C8: calling session.end twice in sequence by the owning host, on a
session whose end notification has not yet been sent, dispatches
exactly one end notification and performs exactly one
markNotificationSent write of the end flag: the first call sends and
sets the flag, the second observes the flag and sends nothing. -/
theorem C8_end_idempotent (st : Store) (now1 now2 : Int) (uid : Nat) (sid : String)
    (session : Session)
    (hget : getSessionBySessionId st sid = some session)
    (hown : session.hostUserId = some uid)
    (hflag : session.endNotificationSent = false) :
    ∃ st1 st2, sessionEnd st now1 uid sid = .ok st1 ∧
      sessionEnd st1 now2 uid sid = .ok st2 ∧
      st2.notifications = st.notifications ++ ["Remote Session Ended"] ∧
      st2.markCalls = st.markCalls ++ [(sid, NotifKind.end_)] := by
  have hend1 : sessionEnd st now1 uid sid = .ok (endFireStore st now1 sid session.id) := by
    unfold sessionEnd endFireStore
    rw [hget]
    simp [hown, hflag]
  have hget1 : getSessionBySessionId (endFireStore st now1 sid session.id) sid
      = some { applyStatusUpdate now1 .disconnected session with
          endNotificationSent := true } := by
    have h1 : getSessionBySessionId (updateSessionStatus st sid .disconnected now1) sid
        = some (applyStatusUpdate now1 .disconnected session) :=
      get_updateStatus st sid .disconnected now1 session hget
    unfold endFireStore
    rw [get_mark]
    show (getSessionBySessionId (updateSessionStatus st sid .disconnected now1) sid).map _
        = _
    rw [h1]
    rfl
  have hend2 := sessionEnd_flagTrue (endFireStore st now1 sid session.id) now2 uid sid
    { applyStatusUpdate now1 .disconnected session with endNotificationSent := true }
    hget1 (by simpa [applyStatusUpdate] using hown) rfl
  exact ⟨_, _, hend1, hend2, rfl, rfl⟩

/-- Witness for C8: ending exSession twice from exStore dispatches one
notification and writes the end flag once. -/
theorem C8_end_idempotent_witness :
    ∃ st1 st2, sessionEnd exStore 500 7 "s1" = .ok st1 ∧
      sessionEnd st1 600 7 "s1" = .ok st2 ∧
      st2.notifications = ["Remote Session Ended"] ∧
      st2.markCalls = [("s1", NotifKind.end_)] := by
  have h := C8_end_idempotent exStore 500 600 7 "s1" exSession
    (by decide) (by decide) (by decide)
  simpa [exStore] using h

/-! ## Claim C9 -/

/-- C9: calendar.createMeeting with an apiKey differing from the
derived calendar key fails with InvalidKey before any store read or
write (the access trace is empty); with the correct key and a hostEmail
resolving to a local user, it creates a waiting session owned by that
user and returns joinUrl base/join/sessionId?p=password and hostUrl
base/viewer/sessionId, where password is the newly generated plaintext
session password. -/
theorem C9_createMeeting (H : String → String) (key : String) (st : Store) (now : Int)
    (hostEmail : String) (mins : Int) (evId src : Option String)
    (genSid genPwd : String) (baseEnv : Option String) :
    (∀ apiKey, apiKey ≠ key →
        createMeeting H key st now apiKey hostEmail mins evId src genSid genPwd baseEnv
          = (.error .invalidApiKey, [])) ∧
    (∀ host, getUserByEmail st hostEmail = some host →
        (∀ x ∈ st.sessions, x.sessionId ≠ genSid) →
        ∃ st', createMeeting H key st now key hostEmail mins evId src genSid genPwd baseEnv
            = (.ok (st',
                { sessionId := genSid
                  password := genPwd
                  joinUrl := baseUrlOf baseEnv ++ "/join/" ++ genSid ++ "?p=" ++ genPwd
                  hostUrl := baseUrlOf baseEnv ++ "/viewer/" ++ genSid
                  expiresAt := now + mins * 60 * 1000 }),
               ["users.select", "sessions.insert", "sessions.select", "sessionLogs.insert"]) ∧
          ∃ srow, getSessionBySessionId st' genSid = some srow ∧
            srow.status = SessionStatus.waiting ∧
            srow.hostUserId = some host.id ∧
            srow.passwordHash = H genPwd) := by
  constructor
  · intro apiKey hne
    unfold createMeeting
    rw [if_pos hne]
  · intro host hhost hfresh
    have hccs := createCalendarSession_fresh H st now host.id mins evId src genSid genPwd hfresh
    refine ⟨logSessionActivity
        { st with
          sessions := st.sessions ++
            [calendarSessionRow H st now host.id mins evId src genSid genPwd]
          nextId := st.nextId + 1 }
        st.nextId "session_created", ?_, ?_⟩
    · unfold createMeeting
      rw [if_neg (by simp)]
      simp only [hhost, hccs]
      rfl
    · refine ⟨calendarSessionRow H st now host.id mins evId src genSid genPwd, ?_, rfl, rfl, rfl⟩
      exact findBySid_append_fresh st.sessions _ (fun x hx => hfresh x hx)

/-- Witness for C9: a wrong key against exStore touches nothing; the
right key with the stored user creates the session and returns the two
urls. -/
theorem C9_createMeeting_witness :
    createMeeting hId "KEY" exStore 1000 "BAD" "host@mercury.test" 120 none none
        "ns1" "NPW" none
      = (.error .invalidApiKey, []) ∧
    ∃ st', createMeeting hId "KEY" exStore 1000 "KEY" "host@mercury.test" 120 none none
          "ns1" "NPW" none
        = (.ok (st',
            { sessionId := "ns1"
              password := "NPW"
              joinUrl := baseUrlOf none ++ "/join/" ++ "ns1" ++ "?p=" ++ "NPW"
              hostUrl := baseUrlOf none ++ "/viewer/" ++ "ns1"
              expiresAt := 1000 + 120 * 60 * 1000 }),
           ["users.select", "sessions.insert", "sessions.select", "sessionLogs.insert"]) ∧
      ∃ srow, getSessionBySessionId st' "ns1" = some srow ∧
        srow.status = SessionStatus.waiting ∧
        srow.hostUserId = some 7 ∧
        srow.passwordHash = hId "NPW" := by
  have h := C9_createMeeting hId "KEY" exStore 1000 "host@mercury.test" 120 none none
    "ns1" "NPW" none
  exact ⟨h.1 "BAD" (by decide),
    h.2 { id := 7, email := some "host@mercury.test" } (by decide) (by decide)⟩

/-! ## Claim C10 -/

/-- C10: signaling.updateStatus is callable with no credential at all:
the embedded operation takes no caller identity and never reads the
optional password, the only failure is NotFound on a missing sessionId,
any caller can set the status of an existing session to connected or
disconnected, and setting disconnected triggers the end-notification
path (dispatch plus flag write) when the end notification was not yet
sent. -/
theorem C10_updateStatus_public (st : Store) (now : Int) (sid : String)
    (pwd : Option String) :
    (getSessionBySessionId st sid = none →
        ∀ status, updateStatus st now sid pwd status = .error .notFound) ∧
    (∀ session, getSessionBySessionId st sid = some session → ∀ status,
        ∃ st', updateStatus st now sid pwd status = .ok st' ∧
          (getSessionBySessionId st' sid).map Session.status = some status.toStatus) ∧
    (∀ session, getSessionBySessionId st sid = some session →
        session.endNotificationSent = false →
        ∃ st', updateStatus st now sid pwd UpdStatus.disconnected = .ok st' ∧
          st'.notifications = st.notifications ++ ["Remote Session Ended"] ∧
          st'.markCalls = st.markCalls ++ [(sid, NotifKind.end_)]) := by
  refine ⟨?_, ?_, ?_⟩
  · intro hnone status
    unfold updateStatus
    rw [hnone]
  · intro session hget status
    cases status with
    | connected =>
      refine ⟨updateSessionStatus st sid .connected now, ?_, ?_⟩
      · unfold updateStatus
        rw [hget]
        rfl
      · rw [get_updateStatus st sid .connected now session hget]
        simp [applyStatusUpdate, UpdStatus.toStatus]
    | disconnected =>
      by_cases hflag : session.endNotificationSent = false
      · refine ⟨updStatusFireStore st now sid session.id, ?_, ?_⟩
        · unfold updateStatus updStatusFireStore
          rw [hget]
          simp [hflag]
          rfl
        · have hx : getSessionBySessionId (notifyOwner (logSessionActivity
              (updateSessionStatus st sid .disconnected now) session.id "disconnected")
              "Remote Session Ended") sid
              = some (applyStatusUpdate now .disconnected session) :=
            get_updateStatus st sid .disconnected now session hget
          unfold updStatusFireStore
          rw [get_mark, hx]
          simp [applyStatusUpdate, UpdStatus.toStatus]
      · simp only [Bool.not_eq_false] at hflag
        refine ⟨logSessionActivity (updateSessionStatus st sid .disconnected now)
            session.id "disconnected", ?_, ?_⟩
        · unfold updateStatus
          rw [hget]
          simp [hflag]
          rfl
        · have hx : getSessionBySessionId (logSessionActivity
              (updateSessionStatus st sid .disconnected now) session.id "disconnected") sid
              = some (applyStatusUpdate now .disconnected session) :=
            get_updateStatus st sid .disconnected now session hget
          rw [hx]
          simp [applyStatusUpdate, UpdStatus.toStatus]
  · intro session hget hflag
    refine ⟨updStatusFireStore st now sid session.id, ?_, rfl, rfl⟩
    unfold updateStatus updStatusFireStore
    rw [hget]
    simp [hflag]
    rfl

/-- Witness for C10: a missing id fails NotFound; an arbitrary caller
with an arbitrary password value flips exSession to connected; the
passwordless disconnected call fires the end-notification path. -/
theorem C10_updateStatus_public_witness :
    updateStatus exStore 500 "zz" none UpdStatus.connected = .error .notFound ∧
    (∃ st', updateStatus exStore 500 "s1" (some "whatever") UpdStatus.connected = .ok st' ∧
      (getSessionBySessionId st' "s1").map Session.status
        = some SessionStatus.connected) ∧
    (∃ st', updateStatus exStore 500 "s1" none UpdStatus.disconnected = .ok st' ∧
      st'.notifications = ["Remote Session Ended"] ∧
      st'.markCalls = [("s1", NotifKind.end_)]) := by
  have hz := (C10_updateStatus_public exStore 500 "zz" none).1 (by decide) UpdStatus.connected
  have hc := (C10_updateStatus_public exStore 500 "s1" (some "whatever")).2.1 exSession
    (by decide) UpdStatus.connected
  have hd := (C10_updateStatus_public exStore 500 "s1" none).2.2 exSession
    (by decide) (by decide)
  refine ⟨hz, hc, ?_⟩
  obtain ⟨st', h1, h2, h3⟩ := hd
  exact ⟨st', h1, by simpa [exStore] using h2, by simpa [exStore] using h3⟩
